import Mathlib

/-!
Verification of the vim-im-select Obsidian plugin (state machine that
synchronizes the Vim editor mode with the OS input method editor).

The development shallowly embeds the two source files:
  * `main.ts` — the current plugin (`onInsert`, `onNormal`, `execSwitch`,
    `onVimModeChanged`, settings load/save);
  * the second source file (unnamed) — the older variant whose
    `switchToNormalIME` runs the obtain command and the switch command
    inside one try block.

Shell execution is modelled by an environment `env : String → ExecResult`
mapping a command line to the outcome of running it, and every operation
returns the list of observable events it produced (commands executed,
errors reported) next to the updated engine state.
-/

namespace VimIm

/-- Outcome of executing one shell command: captured stdout on success,
an error description on failure (models a rejected `exec` promise). -/
inductive ExecResult where
  | success (stdout : String)
  | failure (err : String)
deriving DecidableEq, Repr

/-- Observable side effects of the plugin: a command handed to the shell,
or an error handed to `showError` (message plus underlying error). -/
inductive Event where
  | exec (cmd : String)
  | report (msg : String) (err : String)
deriving DecidableEq, Repr

/-! ## JavaScript `String.replace(/{im}/, repl)` semantics

`switchCmd.replace(/{im}/, im)` finds the first literal occurrence of the
token `{im}` and substitutes the replacement string, after expanding the
JavaScript replacement patterns `$$`, `$&`, a dollar followed by a
backquote, and a dollar followed by a single quote (the regex has no
capture groups, so `$1`..`$9` stay literal). -/

/-- `hasLead pat l` is true when `pat` is an initial segment of `l`. -/
def hasLead : List Char → List Char → Bool
  | [], _ => true
  | _ :: _, [] => false
  | p :: ps, c :: cs => p == c && hasLead ps cs

/-- Split `l` around the first occurrence of `pat`: returns the part
before the occurrence and the part after it, or `none` when `pat` does
not occur. -/
def splitAtFirst (pat : List Char) : List Char → Option (List Char × List Char)
  | [] => if pat.isEmpty then some ([], []) else none
  | c :: rest =>
    if hasLead pat (c :: rest) then some ([], (c :: rest).drop pat.length)
    else (splitAtFirst pat rest).map (fun p => (c :: p.1, p.2))

/-- The backquote character, code point 96. -/
def backquoteChar : Char := Char.ofNat 96

/-- The single-quote character, code point 39. -/
def singleQuoteChar : Char := Char.ofNat 39

/-- Expand the JavaScript replacement patterns in a replacement string:
`$$` yields a dollar, `$&` the matched text, dollar-backquote the text
before the match, dollar-quote the text after the match; any other use
of the dollar sign is literal (the regex has no capture groups). -/
def expandRepl (before matched after : List Char) : List Char → List Char
  | [] => []
  | c :: rest =>
    if c = '$' then
      match rest with
      | [] => ['$']
      | d :: rest2 =>
        if d = '$' then '$' :: expandRepl before matched after rest2
        else if d = '&' then matched ++ expandRepl before matched after rest2
        else if d = backquoteChar then before ++ expandRepl before matched after rest2
        else if d = singleQuoteChar then after ++ expandRepl before matched after rest2
        else '$' :: d :: expandRepl before matched after rest2
    else c :: expandRepl before matched after rest

/-- JavaScript `s.replace(new RegExp(pat-as-literal), repl)` for a pattern
with no special regex characters and no global flag: replace the first
occurrence of `pat`, expanding replacement patterns in `repl`. -/
def jsReplaceFirst (s pat repl : String) : String :=
  match splitAtFirst pat.data s.data with
  | none => s
  | some (b, a) => ⟨b ++ expandRepl b pat.data a repl.data ++ a⟩

/-- Replacement of the first occurrence of `pat` by `repl` taken
literally. This follows the specification text, which describes the
substitution as replacing the first literal occurrence of the token with
the IM string itself; it is compared against `jsReplaceFirst`. -/
def specReplaceFirst (s pat repl : String) : String :=
  match splitAtFirst pat.data s.data with
  | none => s
  | some (b, a) => ⟨b ++ repl.data ++ a⟩

/-- The placeholder token `{im}` (written with escaped braces). -/
def imToken : String := "\x7bim\x7d"

/-- Follows the specification text: the "trimmed stdout" of a command,
i.e. the output with leading and trailing whitespace removed. Used only
to compare the spec's wording with what the source stores. -/
def trimmed (s : String) : String :=
  ⟨((s.data.dropWhile Char.isWhitespace).reverse.dropWhile
      Char.isWhitespace).reverse⟩

/-! ## Data model (from `main.ts`) -/

/-- The reserved sentinel for `insertionIM` (`main.ts` line 32). -/
def INSERTION_MODE_PREVIOUS : String := "_PREVIOUS_"

/-- Per-platform settings record (`main.ts` interface `PlatformSettings`). -/
structure PlatformSettings where
  normalIM : String
  insertionIM : String
  obtainCmd : String
  switchCmd : String
deriving DecidableEq, Repr

/-- Nested settings shape the plugin operates on (`main.ts` interface
`Settings`). -/
structure Settings where
  normalModeOnFocus : Bool
  defaultPlatformSettings : PlatformSettings
  windowsPlatformSettings : PlatformSettings
deriving DecidableEq, Repr

/-- Flat persisted settings shape (`main.ts` interface `RawSettings`). -/
structure RawSettings where
  defaultIM : String
  insertionIM : String
  obtainCmd : String
  switchCmd : String
  windowsDefaultIM : String
  windowsInsertionIM : String
  windowsObtainCmd : String
  windowsSwitchCmd : String
  normalModeOnFocus : Bool
deriving DecidableEq, Repr

/-- Default raw settings (`main.ts` `DEFAULT_SETTINGS`). -/
def DEFAULT_SETTINGS : RawSettings :=
  { defaultIM := ""
    insertionIM := INSERTION_MODE_PREVIOUS
    obtainCmd := ""
    switchCmd := ""
    windowsDefaultIM := ""
    windowsInsertionIM := INSERTION_MODE_PREVIOUS
    windowsObtainCmd := ""
    windowsSwitchCmd := ""
    normalModeOnFocus := false }

/-- Mutable engine state: `previousIMEMode` is the last captured IME
identifier (`null` before any capture); `previousVimMode` is the last
mode string written by `onVimModeChanged` (the initializer is the empty
string, and storing an absent mode field yields `none`, the embedding of
the JavaScript `undefined`). -/
structure EngineState where
  previousIMEMode : Option String
  previousVimMode : Option String
deriving DecidableEq, Repr

/-- State given by the field initializers of the plugin class
(`main.ts` lines 80-81): no captured IME, previous mode the empty
string. -/
def initState : EngineState :=
  { previousIMEMode := none, previousVimMode := some "" }

/-- The assignment `this.previousIMEMode = this.getPlatformSettings().normalIM`
performed by `onload` (`main.ts` line 115). -/
def onloadState (ps : PlatformSettings) (st : EngineState) : EngineState :=
  { st with previousIMEMode := some ps.normalIM }

/-- A mode-change notification object: `otherKeys` counts the enumerable
keys other than `mode`, and `mode` is the value of the `mode` field when
present (`none` embeds an absent field, read as `undefined`). -/
structure ModeObj where
  otherKeys : Nat
  mode : Option String
deriving DecidableEq, Repr

/-- `isEmpty(obj)` from `main.ts` lines 74-76: the argument is an object
and has no enumerable keys at all. -/
def isEmpty (obj : ModeObj) : Bool :=
  obj.otherKeys == 0 && obj.mode == none

/-! ## Operations of `main.ts` -/

/-- Error message used by `execSwitch` (`main.ts` line 156). -/
def msgSwitchErr : String := "An error has occurred while switching IME mode"

/-- Error message used by `onNormal` (`main.ts` line 170; the typo is in
the source). -/
def msgNormalErr : String := "An error occcurred while switching IME mode"

/-- The command string built by `execSwitch`:
`getPlatformSettings().switchCmd.replace(/{im}/, im)` (`main.ts` line 152). -/
def buildSwitchCmd (switchCmd im : String) : String :=
  jsReplaceFirst switchCmd imToken im

/-- `execSwitch(im)` (`main.ts` lines 151-158): build the switch command,
execute it, and report (but swallow) a failure. Returns the emitted
events; the engine state is untouched. -/
def execSwitch (env : String → ExecResult) (ps : PlatformSettings) (im : String) :
    List Event :=
  match env (buildSwitchCmd ps.switchCmd im) with
  | .success _ => [.exec (buildSwitchCmd ps.switchCmd im)]
  | .failure e =>
    [.exec (buildSwitchCmd ps.switchCmd im), .report msgSwitchErr e]

/-- `onInsert()` (`main.ts` lines 140-149): resolve the insertion IM,
falling back to `previousIMEMode` on the sentinel; return without
executing anything when the resolved value is `null`. -/
def onInsert (env : String → ExecResult) (ps : PlatformSettings) (st : EngineState) :
    EngineState × List Event :=
  match (if ps.insertionIM = INSERTION_MODE_PREVIOUS then st.previousIMEMode
      else some ps.insertionIM) with
  | none => (st, [])
  | some m => (st, execSwitch env ps m)

/-- `onNormal()` (`main.ts` lines 165-173): run the obtain command; on
success store its raw stdout into `previousIMEMode`, on failure report
the error; in both cases run `execSwitch` on the platform `normalIM`
afterwards. -/
def onNormal (env : String → ExecResult) (ps : PlatformSettings) (st : EngineState) :
    EngineState × List Event :=
  match env ps.obtainCmd with
  | .success out =>
    ({ st with previousIMEMode := some out },
      Event.exec ps.obtainCmd :: execSwitch env ps ps.normalIM)
  | .failure e =>
    (st,
      Event.exec ps.obtainCmd :: Event.report msgNormalErr e ::
        execSwitch env ps ps.normalIM)

/-- The default branch of the `switch` in `onVimModeChanged`: when the
previous Vim mode was `"insert"`, call `onNormal`; afterwards (in either
case) store the new mode field into `previousVimMode`. -/
def nonInsertStep (env : String → ExecResult) (ps : PlatformSettings)
    (st : EngineState) (newMode : Option String) : EngineState × List Event :=
  if st.previousVimMode = some "insert" then
    ({ (onNormal env ps st).1 with previousVimMode := newMode },
      (onNormal env ps st).2)
  else ({ st with previousVimMode := newMode }, [])

/-- `onVimModeChanged(modeObj)` (`main.ts` lines 175-192): ignore empty
payloads; dispatch on `modeObj.mode` (`"insert"` calls `onInsert`, any
other value takes the default branch); finally store `modeObj.mode` into
`previousVimMode`. -/
def onVimModeChanged (env : String → ExecResult) (ps : PlatformSettings)
    (st : EngineState) (obj : ModeObj) : EngineState × List Event :=
  if isEmpty obj then (st, [])
  else if obj.mode = some "insert" then
    ({ (onInsert env ps st).1 with previousVimMode := obj.mode },
      (onInsert env ps st).2)
  else nonInsertStep env ps st obj.mode

/-- Feed a list of mode notifications through `onVimModeChanged`,
accumulating the emitted events. -/
def runModeEvents (env : String → ExecResult) (ps : PlatformSettings) :
    EngineState → List ModeObj → EngineState × List Event
  | st, [] => (st, [])
  | st, o :: rest =>
    let r := onVimModeChanged env ps st o
    let r2 := runModeEvents env ps r.1 rest
    (r2.1, r.2 ++ r2.2)

/-! ## Operations of the second (unnamed) source file -/

/-- Flat settings of the older plugin variant (interface
`VimImPluginSettings` of the unnamed source file). -/
structure VimImPluginSettings where
  defaultIM : String
  obtainCmd : String
  switchCmd : String
  windowsDefaultIM : String
  windowsObtainCmd : String
  windowsSwitchCmd : String
  switchOnInsert : Bool
  normalModeOnFocus : Bool
deriving DecidableEq, Repr

/-- The switch command resolved by `switchToNormalIME` (unnamed source
file lines 145-147): the platform switch template with `{im}` replaced
by the platform default IM. -/
def p0SwitchCmd (isWin : Bool) (s : VimImPluginSettings) : String :=
  if isWin then jsReplaceFirst s.windowsSwitchCmd imToken s.windowsDefaultIM
  else jsReplaceFirst s.switchCmd imToken s.defaultIM

/-- The obtain command resolved by `switchToNormalIME` (unnamed source
file lines 148-150). -/
def p0ObtainCmd (isWin : Bool) (s : VimImPluginSettings) : String :=
  if isWin then s.windowsObtainCmd else s.obtainCmd

/-- `switchToNormalIME()` of the unnamed source file (lines 144-159):
a single try block first awaits the obtain command, stores its stdout
into `previousIMEMode`, then awaits the switch command; the catch
handler reports whichever of the two failed. An obtain failure therefore
skips the switch execution. -/
def switchToNormalIME (env : String → ExecResult) (isWin : Bool)
    (s : VimImPluginSettings) (st : EngineState) : EngineState × List Event :=
  match env (p0ObtainCmd isWin s) with
  | .success out =>
    match env (p0SwitchCmd isWin s) with
    | .success _ =>
      ({ st with previousIMEMode := some out },
        [.exec (p0ObtainCmd isWin s), .exec (p0SwitchCmd isWin s)])
    | .failure e =>
      ({ st with previousIMEMode := some out },
        [.exec (p0ObtainCmd isWin s), .exec (p0SwitchCmd isWin s),
          .report msgNormalErr e])
  | .failure e =>
    (st, [.exec (p0ObtainCmd isWin s), .report msgNormalErr e])

/-! ## Settings persistence (`main.ts` `loadSettings` / `saveSettings`) -/

/-- Value returned by `loadData()`: the persisted object may miss any
field (`none` embeds an absent property before `Object.assign` fills in
the default). -/
structure StoredData where
  defaultIM : Option String
  insertionIM : Option String
  obtainCmd : Option String
  switchCmd : Option String
  windowsDefaultIM : Option String
  windowsInsertionIM : Option String
  windowsObtainCmd : Option String
  windowsSwitchCmd : Option String
  normalModeOnFocus : Option Bool
deriving DecidableEq, Repr

/-- `Object.assign({}, DEFAULT_SETTINGS, d)`: every property present in
`d` wins over the default. -/
def objectAssign (base : RawSettings) (d : StoredData) : RawSettings :=
  { defaultIM := d.defaultIM.getD base.defaultIM
    insertionIM := d.insertionIM.getD base.insertionIM
    obtainCmd := d.obtainCmd.getD base.obtainCmd
    switchCmd := d.switchCmd.getD base.switchCmd
    windowsDefaultIM := d.windowsDefaultIM.getD base.windowsDefaultIM
    windowsInsertionIM := d.windowsInsertionIM.getD base.windowsInsertionIM
    windowsObtainCmd := d.windowsObtainCmd.getD base.windowsObtainCmd
    windowsSwitchCmd := d.windowsSwitchCmd.getD base.windowsSwitchCmd
    normalModeOnFocus := d.normalModeOnFocus.getD base.normalModeOnFocus }

/-- `loadSettings()` (`main.ts` lines 198-215): merge the stored data
over the defaults, then build the nested `Settings` shape. -/
def loadSettings (d : StoredData) : Settings :=
  let s := objectAssign DEFAULT_SETTINGS d
  { normalModeOnFocus := s.normalModeOnFocus
    windowsPlatformSettings :=
      { normalIM := s.windowsDefaultIM
        insertionIM := s.windowsInsertionIM
        obtainCmd := s.windowsObtainCmd
        switchCmd := s.windowsSwitchCmd }
    defaultPlatformSettings :=
      { normalIM := s.defaultIM
        insertionIM := s.insertionIM
        obtainCmd := s.obtainCmd
        switchCmd := s.switchCmd } }

/-- `saveSettings()` (`main.ts` lines 217-231): flatten the nested
`Settings` into the persisted `RawSettings` shape. -/
def saveSettings (s : Settings) : RawSettings :=
  { normalModeOnFocus := s.normalModeOnFocus
    defaultIM := s.defaultPlatformSettings.normalIM
    insertionIM := s.defaultPlatformSettings.insertionIM
    obtainCmd := s.defaultPlatformSettings.obtainCmd
    switchCmd := s.defaultPlatformSettings.switchCmd
    windowsDefaultIM := s.windowsPlatformSettings.normalIM
    windowsInsertionIM := s.windowsPlatformSettings.insertionIM
    windowsObtainCmd := s.windowsPlatformSettings.obtainCmd
    windowsSwitchCmd := s.windowsPlatformSettings.switchCmd }

/-- A fully-populated `RawSettings` viewed as stored data (what
`loadData()` yields right after `saveData` persisted `r`). -/
def storedOf (r : RawSettings) : StoredData :=
  { defaultIM := some r.defaultIM
    insertionIM := some r.insertionIM
    obtainCmd := some r.obtainCmd
    switchCmd := some r.switchCmd
    windowsDefaultIM := some r.windowsDefaultIM
    windowsInsertionIM := some r.windowsInsertionIM
    windowsObtainCmd := some r.windowsObtainCmd
    windowsSwitchCmd := some r.windowsSwitchCmd
    normalModeOnFocus := some r.normalModeOnFocus }

/-! ## Concrete fixtures used by witnesses and counterexamples -/

/-- Example platform settings: macOS-style `im-select` commands, the
`insertionIM` sentinel left at its default. -/
def psEx : PlatformSettings :=
  { normalIM := "us"
    insertionIM := INSERTION_MODE_PREVIOUS
    obtainCmd := "obtain"
    switchCmd := "im-select \x7bim\x7d" }

/-- Example platform settings with a concrete (non-sentinel)
insertion IM. -/
def psLit : PlatformSettings :=
  { psEx with insertionIM := "abc" }

/-- Environment in which every command succeeds; the obtain command
prints `pinyin` followed by a newline. -/
def envOk : String → ExecResult :=
  fun c => if c = "obtain" then .success "pinyin\n" else .success ""

/-- Environment in which the obtain command fails and every other
command succeeds. -/
def envFail : String → ExecResult :=
  fun c => if c = "obtain" then .failure "boom" else .success ""

/-- Example settings for the older plugin variant (default platform). -/
def s0 : VimImPluginSettings :=
  { defaultIM := "us"
    obtainCmd := "obtain"
    switchCmd := "im-select \x7bim\x7d"
    windowsDefaultIM := ""
    windowsObtainCmd := ""
    windowsSwitchCmd := ""
    switchOnInsert := true
    normalModeOnFocus := false }

/-- State whose previous Vim mode is `"insert"`. -/
def stIns : EngineState :=
  { previousIMEMode := none, previousVimMode := some "insert" }

/-- State with a captured previous IME identifier. -/
def stPinyin : EngineState :=
  { previousIMEMode := some "pinyin", previousVimMode := some "" }

/-- Notification carrying mode `"normal"`. -/
def oNormal : ModeObj := { otherKeys := 0, mode := some "normal" }

/-- Notification carrying mode `"visual"`. -/
def oVisual : ModeObj := { otherKeys := 0, mode := some "visual" }

/-- Notification carrying mode `"insert"`. -/
def oInsert : ModeObj := { otherKeys := 0, mode := some "insert" }

/-- Non-empty notification without a `mode` field (for instance
`\x7b foo: 1 \x7d`). -/
def objNoMode : ModeObj := { otherKeys := 1, mode := none }

/-! ## Helper lemmas -/

/-- `onInsert` never modifies the engine state. -/
lemma onInsert_fst (env : String → ExecResult) (ps : PlatformSettings)
    (st : EngineState) : (onInsert env ps st).1 = st := by
  unfold onInsert
  split <;> rfl

/-- The event trace of `onInsert` depends on the state only through
`previousIMEMode`. -/
lemma onInsert_snd_congr (env : String → ExecResult) (ps : PlatformSettings)
    (st st2 : EngineState) (h : st2.previousIMEMode = st.previousIMEMode) :
    (onInsert env ps st2).2 = (onInsert env ps st).2 := by
  unfold onInsert
  rw [h]
  split <;> rfl

/-- On an obtain failure `onNormal` leaves the state untouched and emits
the obtain execution, the error report, and the switch events. -/
lemma onNormal_fail (env : String → ExecResult) (ps : PlatformSettings)
    (st : EngineState) (e : String) (h : env ps.obtainCmd = .failure e) :
    onNormal env ps st =
      (st, Event.exec ps.obtainCmd :: Event.report msgNormalErr e ::
        execSwitch env ps ps.normalIM) := by
  unfold onNormal
  rw [h]

/-- On an obtain success `onNormal` stores the raw stdout. -/
lemma onNormal_success (env : String → ExecResult) (ps : PlatformSettings)
    (st : EngineState) (out : String) (h : env ps.obtainCmd = .success out) :
    onNormal env ps st =
      ({ st with previousIMEMode := some out },
        Event.exec ps.obtainCmd :: execSwitch env ps ps.normalIM) := by
  unfold onNormal
  rw [h]

/-- One `onVimModeChanged` step on a non-insert notification from a
non-insert previous mode emits nothing and keeps the previous mode
non-insert. -/
lemma stepQuiet (env : String → ExecResult) (ps : PlatformSettings)
    (st : EngineState) (obj : ModeObj)
    (h : st.previousVimMode ≠ some "insert") (hm : obj.mode ≠ some "insert") :
    (onVimModeChanged env ps st obj).2 = [] ∧
      (onVimModeChanged env ps st obj).1.previousVimMode ≠ some "insert" := by
  by_cases he : isEmpty obj
  · simp [onVimModeChanged, he, h]
  · simp [onVimModeChanged, nonInsertStep, he, hm, h]

/-- A run of notifications none of which carries mode `"insert"`, from a
state whose previous mode is not `"insert"`, emits no event at all. -/
lemma runModeEvents_quiet (env : String → ExecResult) (ps : PlatformSettings) :
    ∀ (objs : List ModeObj) (st : EngineState),
      st.previousVimMode ≠ some "insert" →
      (∀ o ∈ objs, o.mode ≠ some "insert") →
      (runModeEvents env ps st objs).2 = []
  | [], _, _, _ => rfl
  | o :: rest, st, h, hobjs => by
    have hs := stepQuiet env ps st o h (hobjs o (List.mem_cons_self o rest))
    have hrec := runModeEvents_quiet env ps rest (onVimModeChanged env ps st o).1
      hs.2 (fun x hx => hobjs x (List.mem_cons_of_mem o hx))
    simp [runModeEvents, hs.1, hrec]

/-- With no dollar sign in the replacement list, replacement-pattern
expansion is the identity. -/
lemma expandRepl_no_dollar (b m a : List Char) :
    ∀ l : List Char, '$' ∉ l → expandRepl b m a l = l := by
  intro l
  induction l with
  | nil => intro _; rfl
  | cons c rest ih =>
    intro h
    have hc : ¬ c = '$' := by
      intro hc
      exact h (by simp [hc])
    have hr : '$' ∉ rest := fun hmem => h (List.mem_cons_of_mem _ hmem)
    rw [expandRepl.eq_def]
    simp [hc, ih hr]

/-- With no dollar sign in the replacement string, the JavaScript
replace agrees with literal first-occurrence replacement. -/
lemma jsReplaceFirst_no_dollar (s pat repl : String) (h : '$' ∉ repl.data) :
    jsReplaceFirst s pat repl = specReplaceFirst s pat repl := by
  unfold jsReplaceFirst specReplaceFirst
  cases hs : splitAtFirst pat.data s.data with
  | none => rfl
  | some p =>
    cases p with
    | mk b a => simp [expandRepl_no_dollar b pat.data a repl.data h]

/-! ## Claims -/

/-- Claim C9: flattening a nested `Settings` value to the persisted
`RawSettings` shape (the `saveSettings` mapping) and rebuilding the
nested shape from it (the `loadSettings` mapping, defaults merged under
the stored fields) returns a `Settings` value equal field for field to
the original. -/
theorem claim9_settings_roundtrip (s : Settings) :
    loadSettings (storedOf (saveSettings s)) = s := rfl

/-- Claim C10: when the obtain command fails, `onNormal` leaves
`previousIMEMode` exactly as it was before the call; the snapshot
assignment happens only on success. -/
theorem claim10_obtain_failure_preserves (env : String → ExecResult)
    (ps : PlatformSettings) (st : EngineState) (e : String)
    (h : env ps.obtainCmd = ExecResult.failure e) :
    (onNormal env ps st).1.previousIMEMode = st.previousIMEMode := by
  rw [onNormal_fail env ps st e h]

/-- Witness for C10 at a concrete failing environment and state. -/
theorem claim10_obtain_failure_preserves_witness :
    (onNormal envFail psEx stPinyin).1.previousIMEMode =
      stPinyin.previousIMEMode :=
  claim10_obtain_failure_preserves envFail psEx stPinyin "boom" rfl

/-- Claim C2 counterexample: the source stores the raw stdout of the
obtain command, not the trimmed stdout. With stdout `"pinyin\n"`,
`previousIMEMode` becomes `"pinyin\n"`, which differs from its trimmed
form `"pinyin"`. -/
theorem claim2_counterexample :
    (onNormal envOk psEx initState).1.previousIMEMode = some "pinyin\n" ∧
    trimmed "pinyin\n" = "pinyin" ∧
    (onNormal envOk psEx initState).1.previousIMEMode ≠
      some (trimmed "pinyin\n") := by
  refine ⟨rfl, by decide, by decide⟩

/-- Claim C2 as amended: on a successful obtain, `previousIMEMode` is
set to the raw (untrimmed) stdout of the obtain command, overwriting any
prior value. -/
theorem claim2_raw_stdout_stored (env : String → ExecResult)
    (ps : PlatformSettings) (st : EngineState) (out : String)
    (h : env ps.obtainCmd = ExecResult.success out) :
    (onNormal env ps st).1.previousIMEMode = some out := by
  rw [onNormal_success env ps st out h]

/-- Witness for the amended C2: the prior value `some "pinyin"` is
overwritten by the captured stdout. -/
theorem claim2_raw_stdout_stored_witness :
    (onNormal envOk psEx stPinyin).1.previousIMEMode = some "pinyin\n" :=
  claim2_raw_stdout_stored envOk psEx stPinyin "pinyin\n" rfl

/-- Claim C5: `onInsert` performs no command when `insertionIM` is the
`PREVIOUS` sentinel and no previous IME was captured; with a captured
value `s` it runs the switch command with the placeholder replaced by
`s`; with a concrete `insertionIM` it runs the switch command with the
placeholder replaced by `insertionIM`. The final conjunct records that
`execSwitch` indeed executes the switch template with the placeholder
substituted. -/
theorem claim5_onInsert_cases (env : String → ExecResult)
    (ps : PlatformSettings) (st : EngineState) :
    (ps.insertionIM = INSERTION_MODE_PREVIOUS ∧ st.previousIMEMode = none →
      onInsert env ps st = (st, [])) ∧
    (∀ s, ps.insertionIM = INSERTION_MODE_PREVIOUS ∧
        st.previousIMEMode = some s →
      onInsert env ps st = (st, execSwitch env ps s)) ∧
    (ps.insertionIM ≠ INSERTION_MODE_PREVIOUS →
      onInsert env ps st = (st, execSwitch env ps ps.insertionIM)) ∧
    (∀ im, (execSwitch env ps im).head? =
      some (Event.exec (buildSwitchCmd ps.switchCmd im))) := by
  refine ⟨?_, ?_, ?_, ?_⟩
  · rintro ⟨h1, h2⟩
    simp [onInsert, h1, h2]
  · rintro s ⟨h1, h2⟩
    simp [onInsert, h1, h2]
  · intro h1
    simp [onInsert, h1]
  · intro im
    unfold execSwitch
    cases henv : env (buildSwitchCmd ps.switchCmd im) <;> simp

/-- Witness for C5: all three branches at concrete inputs. -/
theorem claim5_onInsert_cases_witness :
    onInsert envOk psEx initState = (initState, []) ∧
    onInsert envOk psEx stPinyin = (stPinyin, execSwitch envOk psEx "pinyin") ∧
    onInsert envOk psLit stPinyin = (stPinyin, execSwitch envOk psLit "abc") :=
  ⟨(claim5_onInsert_cases envOk psEx initState).1 ⟨rfl, rfl⟩,
   (claim5_onInsert_cases envOk psEx stPinyin).2.1 "pinyin" ⟨rfl, rfl⟩,
   (claim5_onInsert_cases envOk psLit stPinyin).2.2.1 (by decide)⟩

/-- Claim C3: on a notification carrying a non-insert mode value,
`onVimModeChanged` runs `onNormal` exactly when `previousVimMode` is
`"insert"` (otherwise it only records the new mode and emits nothing);
consequently a run of notifications none of which carries the mode
`"insert"`, started from a state whose previous mode is not `"insert"`
(in particular the initial state), executes no IME command at all. -/
theorem claim3_noninsert_dispatch (env : String → ExecResult)
    (ps : PlatformSettings) :
    (∀ (st : EngineState) (obj : ModeObj),
      obj.mode ≠ none → obj.mode ≠ some "insert" →
      onVimModeChanged env ps st obj =
        if st.previousVimMode = some "insert" then
          ({ (onNormal env ps st).1 with previousVimMode := obj.mode },
            (onNormal env ps st).2)
        else ({ st with previousVimMode := obj.mode }, [])) ∧
    (∀ (objs : List ModeObj) (st : EngineState),
      st.previousVimMode ≠ some "insert" →
      (∀ o ∈ objs, o.mode ≠ some "insert") →
      (runModeEvents env ps st objs).2 = []) := by
  constructor
  · intro st obj h1 h2
    have hne : isEmpty obj = false := by
      simp [isEmpty, h1]
    simp [onVimModeChanged, nonInsertStep, hne, h2]
  · exact fun objs st h1 h2 => runModeEvents_quiet env ps objs st h1 h2

/-- Witness for C3: a visual notification out of insert mode triggers
`onNormal`, and the run normal → visual → normal from the initial state
emits no event. -/
theorem claim3_noninsert_dispatch_witness :
    (onVimModeChanged envOk psEx stIns oVisual =
      if stIns.previousVimMode = some "insert" then
        ({ (onNormal envOk psEx stIns).1 with previousVimMode := oVisual.mode },
          (onNormal envOk psEx stIns).2)
      else ({ stIns with previousVimMode := oVisual.mode }, [])) ∧
    (runModeEvents envOk psEx initState [oNormal, oVisual, oNormal]).2 = [] :=
  ⟨(claim3_noninsert_dispatch envOk psEx).1 stIns oVisual (by decide) (by decide),
   (claim3_noninsert_dispatch envOk psEx).2 [oNormal, oVisual, oNormal]
     initState (by decide) (by decide)⟩

/-- Claim C4: a notification carrying the mode `"insert"` always
dispatches to `onInsert`, whatever `previousVimMode` holds, and two
consecutive insert notifications emit the `onInsert` events twice (no
deduplication). -/
theorem claim4_insert_dispatch (env : String → ExecResult)
    (ps : PlatformSettings) (st : EngineState) (obj : ModeObj)
    (h : obj.mode = some "insert") :
    onVimModeChanged env ps st obj =
      ({ st with previousVimMode := some "insert" }, (onInsert env ps st).2) ∧
    (runModeEvents env ps st [obj, obj]).2 =
      (onInsert env ps st).2 ++ (onInsert env ps st).2 := by
  have hne : isEmpty obj = false := by
    simp [isEmpty, h]
  have h1 : onVimModeChanged env ps st obj =
      ({ st with previousVimMode := some "insert" }, (onInsert env ps st).2) := by
    have hfst := onInsert_fst env ps st
    simp [onVimModeChanged, hne, h, hfst]
  have hcong := onInsert_snd_congr env ps st
    { st with previousVimMode := some "insert" } rfl
  have h2 : onVimModeChanged env ps
      { st with previousVimMode := some "insert" } obj =
      ({ st with previousVimMode := some "insert" }, (onInsert env ps st).2) := by
    have hfst := onInsert_fst env ps { st with previousVimMode := some "insert" }
    simp [onVimModeChanged, hne, h, hfst, hcong]
  refine ⟨h1, ?_⟩
  simp [runModeEvents, h1, h2]

/-- Witness for C4 with `previousVimMode = "insert"` already (a repeated
insert notification still re-triggers `onInsert`). -/
theorem claim4_insert_dispatch_witness :
    onVimModeChanged envOk psEx stIns oInsert =
      ({ stIns with previousVimMode := some "insert" },
        (onInsert envOk psEx stIns).2) ∧
    (runModeEvents envOk psEx stIns [oInsert, oInsert]).2 =
      (onInsert envOk psEx stIns).2 ++ (onInsert envOk psEx stIns).2 :=
  claim4_insert_dispatch envOk psEx stIns oInsert rfl

/-- Claim C6 counterexample: `previousIMEMode` does not stay `null`
until the first successful obtain: `onload` assigns the active
platform's `normalIM` to it (a non-null value) before any obtain
command has run. -/
theorem claim6_counterexample :
    initState.previousIMEMode = none ∧
    (onloadState psEx initState).previousIMEMode = some "us" ∧
    (onloadState psEx initState).previousIMEMode ≠ none := by
  refine ⟨rfl, rfl, by decide⟩

/-- Claim C6 as amended: `previousIMEMode` is `null` at engine creation,
but `onload` assigns the active platform's `normalIM` before any obtain
runs; afterwards, as long as the obtain command fails, no mode
notification changes `previousIMEMode`. -/
theorem claim6_previousIMEMode_lifecycle (env : String → ExecResult)
    (ps : PlatformSettings) (st : EngineState) (obj : ModeObj) (err : String) :
    initState.previousIMEMode = none ∧
    (onloadState ps st).previousIMEMode = some ps.normalIM ∧
    (env ps.obtainCmd = ExecResult.failure err →
      (onVimModeChanged env ps st obj).1.previousIMEMode =
        st.previousIMEMode) := by
  refine ⟨rfl, rfl, ?_⟩
  intro h
  by_cases he : isEmpty obj
  · simp [onVimModeChanged, he]
  · by_cases hm : obj.mode = some "insert"
    · simp [onVimModeChanged, he, hm, onInsert_fst]
    · by_cases hp : st.previousVimMode = some "insert"
      · simp [onVimModeChanged, nonInsertStep, he, hm, hp,
          onNormal_fail env ps st err h]
      · simp [onVimModeChanged, nonInsertStep, he, hm, hp]

/-- Witness for the amended C6 at a concrete failing environment. -/
theorem claim6_previousIMEMode_lifecycle_witness :
    initState.previousIMEMode = none ∧
    (onloadState psEx stPinyin).previousIMEMode = some psEx.normalIM ∧
    (onVimModeChanged envFail psEx stIns objNoMode).1.previousIMEMode =
      stIns.previousIMEMode :=
  ⟨(claim6_previousIMEMode_lifecycle envFail psEx stIns objNoMode "boom").1,
   (claim6_previousIMEMode_lifecycle envFail psEx stPinyin objNoMode "boom").2.1,
   (claim6_previousIMEMode_lifecycle envFail psEx stIns objNoMode "boom").2.2 rfl⟩

/-- Claim C7 counterexample: a non-empty notification without a `mode`
field is not a no-op. With `previousVimMode = "insert"`, it triggers
`onNormal` (commands are executed) and overwrites `previousVimMode`. -/
theorem claim7_counterexample :
    (onVimModeChanged envOk psEx stIns objNoMode).2 ≠ [] ∧
    (onVimModeChanged envOk psEx stIns objNoMode).1.previousVimMode ≠
      stIns.previousVimMode := by
  constructor <;> decide

/-- Claim C7 as amended: only the empty-object payload (no enumerable
keys at all) makes `onVimModeChanged` return immediately with no state
change; a non-empty notification lacking a `mode` field instead takes
the non-insert branch — it triggers `onNormal` when `previousVimMode`
is `"insert"` and stores the absent mode into `previousVimMode`. -/
theorem claim7_empty_payload (env : String → ExecResult)
    (ps : PlatformSettings) (st : EngineState) (obj : ModeObj) :
    (isEmpty obj = true → onVimModeChanged env ps st obj = (st, [])) ∧
    (obj.otherKeys ≠ 0 → obj.mode = none →
      onVimModeChanged env ps st obj =
        if st.previousVimMode = some "insert" then
          ({ (onNormal env ps st).1 with previousVimMode := none },
            (onNormal env ps st).2)
        else ({ st with previousVimMode := none }, [])) := by
  constructor
  · intro he
    simp [onVimModeChanged, he]
  · intro hk hm
    have hne : isEmpty obj = false := by
      simp [isEmpty, hk]
    simp [onVimModeChanged, nonInsertStep, hne, hm]

/-- Witness for the amended C7: the empty payload is a no-op, and the
one-key payload without a mode field takes the non-insert branch. -/
theorem claim7_empty_payload_witness :
    onVimModeChanged envOk psEx stPinyin { otherKeys := 0, mode := none } =
      (stPinyin, []) ∧
    onVimModeChanged envOk psEx stPinyin objNoMode =
      (if stPinyin.previousVimMode = some "insert" then
        ({ (onNormal envOk psEx stPinyin).1 with previousVimMode := none },
          (onNormal envOk psEx stPinyin).2)
      else ({ stPinyin with previousVimMode := none }, [])) :=
  ⟨(claim7_empty_payload envOk psEx stPinyin
      { otherKeys := 0, mode := none }).1 rfl,
   (claim7_empty_payload envOk psEx stPinyin objNoMode).2 (by decide) rfl⟩

/-- Claim C1 counterexample: in the older source file's
`switchToNormalIME`, the switch command lives in the same try block as
the obtain command, so when the obtain command fails the error is
reported but the switch command is never executed — the claim's
"a failed snapshot never prevents the switch attempt" fails there. -/
theorem claim1_counterexample :
    Event.report msgNormalErr "boom" ∈
      (switchToNormalIME envFail false s0 initState).2 ∧
    Event.exec (p0SwitchCmd false s0) ∉
      (switchToNormalIME envFail false s0 initState).2 := by
  constructor <;> decide

/-- Claim C1 as amended: in `onNormal` (main.ts) an obtain failure is
reported and the switch command is still executed afterwards with the
platform `normalIM` substituted for the placeholder; in the older
file's `switchToNormalIME` an obtain failure is reported but the switch
execution is skipped, because both commands share one try block. -/
theorem claim1_enterNormal_error_paths (env : String → ExecResult)
    (ps : PlatformSettings) (isWin : Bool) (s : VimImPluginSettings)
    (st : EngineState) (e : String) :
    (env ps.obtainCmd = ExecResult.failure e →
      (onNormal env ps st).2 =
        Event.exec ps.obtainCmd :: Event.report msgNormalErr e ::
          execSwitch env ps ps.normalIM ∧
      (execSwitch env ps ps.normalIM).head? =
        some (Event.exec (buildSwitchCmd ps.switchCmd ps.normalIM))) ∧
    (env (p0ObtainCmd isWin s) = ExecResult.failure e →
      (switchToNormalIME env isWin s st).2 =
        [Event.exec (p0ObtainCmd isWin s), Event.report msgNormalErr e]) := by
  constructor
  · intro h
    refine ⟨by rw [onNormal_fail env ps st e h], ?_⟩
    unfold execSwitch
    cases henv : env (buildSwitchCmd ps.switchCmd ps.normalIM) <;> simp
  · intro h
    unfold switchToNormalIME
    rw [h]

/-- Witness for the amended C1 at a concrete failing environment. -/
theorem claim1_enterNormal_error_paths_witness :
    ((onNormal envFail psEx initState).2 =
        Event.exec psEx.obtainCmd :: Event.report msgNormalErr "boom" ::
          execSwitch envFail psEx psEx.normalIM ∧
      (execSwitch envFail psEx psEx.normalIM).head? =
        some (Event.exec (buildSwitchCmd psEx.switchCmd psEx.normalIM))) ∧
    (switchToNormalIME envFail false s0 initState).2 =
      [Event.exec (p0ObtainCmd false s0), Event.report msgNormalErr "boom"] :=
  ⟨(claim1_enterNormal_error_paths envFail psEx false s0 initState "boom").1 rfl,
   (claim1_enterNormal_error_paths envFail psEx false s0 initState "boom").2 rfl⟩

/-- Claim C8 counterexample: the substitution is JavaScript
`String.replace`, which processes replacement patterns in the IM
string. With `im = "$$"` the executed command is `"im-select $"`,
not the literal first-occurrence replacement `"im-select $$"` the
claim describes. -/
theorem claim8_counterexample :
    buildSwitchCmd "im-select \x7bim\x7d" "$$" = "im-select $" ∧
    specReplaceFirst "im-select \x7bim\x7d" imToken "$$" = "im-select $$" ∧
    buildSwitchCmd "im-select \x7bim\x7d" "$$" ≠
      specReplaceFirst "im-select \x7bim\x7d" imToken "$$" := by
  refine ⟨by decide, by decide, by decide⟩

/-- Claim C8 as amended: `execSwitch` builds the command by replacing
the first occurrence of the placeholder token, with the replacement
string processed for JavaScript replacement patterns; whenever the IM
string contains no dollar sign this is exactly the literal replacement
of the first occurrence (later occurrences stay intact), and the
`im-select` example of the claim holds. -/
theorem claim8_substitution (sc im : String) (h : '$' ∉ im.data) :
    buildSwitchCmd sc im = specReplaceFirst sc imToken im ∧
    buildSwitchCmd "im-select \x7bim\x7d" "com.apple.inputmethod.SCIM.ITABC" =
      "im-select com.apple.inputmethod.SCIM.ITABC" :=
  ⟨jsReplaceFirst_no_dollar sc imToken im h, by decide⟩

/-- Witness for the amended C8 on a template containing the placeholder
twice: only the first occurrence is replaced. -/
theorem claim8_substitution_witness :
    buildSwitchCmd "a \x7bim\x7d b \x7bim\x7d" "zh" =
      specReplaceFirst "a \x7bim\x7d b \x7bim\x7d" imToken "zh" ∧
    specReplaceFirst "a \x7bim\x7d b \x7bim\x7d" imToken "zh" =
      "a zh b \x7bim\x7d" :=
  ⟨(claim8_substitution "a \x7bim\x7d b \x7bim\x7d" "zh" (by decide)).1,
   by decide⟩

end VimIm
